import Mathlib

/-!
Verification of the core logic of the mcp_clickhouse_vllm repository.

The Python sources (src/mcp_server.py, src/web_app.py) are shallowly embedded
below: strings are modelled as Lean strings (sequences of characters, matching
Python string semantics for the ASCII data the code manipulates), Python lists
as Lean lists, and the ClickHouse client as an oracle record whose fields give
the rows (or the raised-exception message) each catalog query would return.
-/

set_option maxRecDepth 4000

/-! ## Python string primitives used by the sources -/

/-- Python sep.join(xs). -/
def pyJoin (sep : String) : List String → String
  | [] => ""
  | [x] => x
  | x :: y :: t => x ++ sep ++ pyJoin sep (y :: t)

/-- Python slice s[:n]. -/
def strTake (s : String) (n : Nat) : String := String.mk (s.data.take n)

/-- Python slice s[n:]. -/
def strDrop (s : String) (n : Nat) : String := String.mk (s.data.drop n)

/-- Python slice s[:-n] (n positive): drop the last n characters. -/
def strDropRight (s : String) (n : Nat) : String := String.mk (s.data.take (s.data.length - n))

/-- Python s.startswith(p). -/
def strStartsWith (s p : String) : Bool := p.data.isPrefixOf s.data

/-- Python s.endswith(p). -/
def strEndsWith (s p : String) : Bool := p.data.isSuffixOf s.data

/-- Helper for the Python substring test. -/
def containsSubAux (needle : List Char) : List Char → Bool
  | [] => needle.isPrefixOf ([] : List Char)
  | c :: t => needle.isPrefixOf (c :: t) || containsSubAux needle t

/-- Python membership test: needle in haystack. -/
def strContains (haystack needle : String) : Bool := containsSubAux needle.data haystack.data

/-- Helper for Python str.find. -/
def findSubAux (needle : List Char) : List Char → Nat → Option Nat
  | [], i => if needle.isPrefixOf ([] : List Char) then some i else none
  | c :: t, i => if needle.isPrefixOf (c :: t) then some i else findSubAux needle t (i + 1)

/-- Python s.find(needle): index of the first occurrence, none where Python returns -1. -/
def strFind (haystack needle : String) : Option Nat := findSubAux needle.data haystack.data 0

/-- The whitespace set of Python str.strip. -/
def pyIsSpace (c : Char) : Bool :=
  c = ' ' || c = '\t' || c = '\n' || c = '\r' || c = '\x0b' || c = '\x0c'

/-- Python s.strip(). -/
def pyStrip (s : String) : String :=
  String.mk (((s.data.dropWhile pyIsSpace).reverse.dropWhile pyIsSpace).reverse)

/-- Python s.lower() (the sources only lower-case ASCII keywords and utterances). -/
def pyLower (s : String) : String := String.mk (s.data.map Char.toLower)

/-- Python s.upper() on ASCII. -/
def pyUpper (s : String) : String := String.mk (s.data.map Char.toUpper)

/-- Python format spec :<w — left justify to width w with spaces, never truncating. -/
def padLeftJustify (s : String) (w : Nat) : String :=
  s ++ String.mk (List.replicate (w - s.length) ' ')

/-! ## format_table_as_ascii (mcp_server.py lines 47-85, duplicated at web_app.py lines 336-374)

Both copies build the same list of lines; they differ only in the final join
(mcp_server joins with a newline, web_app line 374 joins with the literal
two-character sequence backslash-n written "\\n" in the Python source). -/

/-- Width of column i: the loop at mcp_server.py lines 54-59. -/
def ascii_col_width (rows : List (List String)) (i : Nat) (header : String) : Nat :=
  min (rows.foldl (fun m row => if i < row.length then max m (row.getD i "").length else m)
        header.length) 50

/-- col_widths, one entry per header (enumerate(headers)). -/
def ascii_col_widths (headers : List String) (rows : List (List String)) : List Nat :=
  (List.range headers.length).map (fun i => ascii_col_width rows i (headers.getD i ""))

/-- The +---+---+ separator line (line 62). -/
def ascii_separator (widths : List Nat) : String :=
  "+" ++ pyJoin "+" (widths.map (fun w => String.mk (List.replicate (w + 2) '-'))) ++ "+"

/-- One rendered cell: the content is cut to the column width and left justified
(the f-string " s:<w |" applied to str(x)[:w]). -/
def ascii_field (s : String) (w : Nat) : String :=
  " " ++ padLeftJustify (strTake s w) w ++ " |"

/-- The header line (lines 65-68). -/
def ascii_header_line (headers : List String) (widths : List Nat) : String :=
  "|" ++ String.join ((List.range headers.length).map
    (fun i => ascii_field (headers.getD i "") (widths.getD i 0)))

/-- The cells of one data row: indices run over range(len(headers)), a short row
supplies "" for the missing cells, surplus cells are never read (lines 74-81). -/
def ascii_row_fields (n : Nat) (widths : List Nat) (row : List String) : List String :=
  (List.range n).map (fun i =>
    ascii_field (if i < row.length then row.getD i "" else "") (widths.getD i 0))

/-- One data row line. -/
def ascii_row_line (n : Nat) (widths : List Nat) (row : List String) : String :=
  "|" ++ String.join (ascii_row_fields n widths row)

/-- The full list of lines of the rendered table (separator, header, separator,
data rows, trailing separator). -/
def ascii_table_lines (headers : List String) (rows : List (List String)) : List String :=
  [ascii_separator (ascii_col_widths headers rows),
   ascii_header_line headers (ascii_col_widths headers rows),
   ascii_separator (ascii_col_widths headers rows)]
    ++ rows.map (ascii_row_line headers.length (ascii_col_widths headers rows))
    ++ [ascii_separator (ascii_col_widths headers rows)]

/-- format_table_as_ascii of mcp_server.py: lines joined with a newline. -/
def format_table_as_ascii (headers : List String) (rows : List (List String)) : String :=
  if headers.isEmpty && rows.isEmpty then "No data available"
  else pyJoin "\n" (ascii_table_lines headers rows)

/-- format_table_as_ascii of web_app.py: identical except that line 374 joins the
lines with the literal two-character string backslash-n instead of a newline. -/
def web_format_table_as_ascii (headers : List String) (rows : List (List String)) : String :=
  if headers.isEmpty && rows.isEmpty then "No data available"
  else pyJoin "\\n" (ascii_table_lines headers rows)

example : format_table_as_ascii [] [] = "No data available" := by decide
example : ascii_col_widths ["ab"] [["xyzw"], ["q"]] = [4] := by decide
example : format_table_as_ascii ["a"] [] = "+---+\n| a |\n+---+\n+---+" := by decide
example : web_format_table_as_ascii ["a"] [] = "+---+\\n| a |\\n+---+\\n+---+" := by decide

/-! ## detect_intent (web_app.py lines 405-416) -/

/-- detect_intent: keyword-based intent detection on the lower-cased message.
The Python returns a pair whose second component is always None. -/
def detect_intent (message : String) : String × Option String :=
  let message_lower := pyLower message
  if ["schema", "create", "ddl", "definition"].any (fun word => strContains message_lower word) then
    ("get_database_schema", none)
  else if ["list", "show", "tables", "columns", "structure", "database"].any
      (fun word => strContains message_lower word) then
    ("list_tables_with_columns", none)
  else
    ("none", none)

/-- IntentClassifier.classify exactly as worded in spec section 4.4
(case-insensitive substring match, two keyword sets in fixed priority order). -/
def classify (utterance : String) : String :=
  let u := pyLower utterance
  if ["schema", "create", "ddl", "definition"].any (fun k => strContains u k) then
    "get_database_schema"
  else if ["list", "show", "tables", "columns", "structure", "database"].any
      (fun k => strContains u k) then
    "list_tables_with_columns"
  else
    "none"

example : detect_intent "show me the schema for orders" = ("get_database_schema", none) := by decide
example : detect_intent "list the tables" = ("list_tables_with_columns", none) := by decide
example : detect_intent "hello there" = ("none", none) := by decide

/-! ## Thinking-token stripping (web_app.py lines 459-466, repeated at 495-500)

The code operates on response_text, the already whitespace-stripped LLM reply. -/

/-- The think-token removal step of the chat handler: if the reply starts with
the opening marker, cut at the first closing marker and strip the remainder;
with no closing marker, cut at the first blank-line break (split drops the text
up to and including the first occurrence); otherwise keep the text. -/
def strip_think (response_text : String) : String :=
  if strStartsWith response_text "<think>" then
    match strFind response_text "</think>" with
    | some end_think => pyStrip (strDrop response_text (end_think + 8))
    | none =>
      match strFind response_text "\n\n" with
      | some i => strDrop response_text (i + 2)
      | none => response_text
  else response_text

example : strip_think "<think>reasoning</think>Final answer." = "Final answer." := by decide
example : strip_think "<think>reasoning\n\nFinal answer." = "Final answer." := by decide
example : strip_think "plain reply" = "plain reply" := by decide
example : strip_think "<think>r</think> Final." = "Final." := by decide

/-! ## detect_relationships (web_app.py lines 296-310) -/

/-- The keys of the tables mapping (a Python dict iterated in insertion order;
modelled as an association list). An entry pairs a table name with its columns,
each column a triple (column_name, column_type, key_type). -/
def table_names (tables : List (String × List (String × String × String))) : List String :=
  tables.map Prod.fst

/-- The body of the inner loop of detect_relationships: a non-PRIMARY column
ending in _id yields one relationship string when the stripped name, or its
plural, is a known table (singular checked first). -/
def detect_relationships_step (names : List String) (table_name : String)
    (rels : List String) (col : String × String × String) : List String :=
  if strEndsWith col.1 "_id" && (col.2.2 != "PRIMARY") then
    let referenced_table := strDropRight col.1 3
    if names.contains referenced_table || names.contains (referenced_table ++ "s") then
      let target_table :=
        if names.contains referenced_table then referenced_table else referenced_table ++ "s"
      rels ++ [table_name ++ "." ++ col.1 ++ " → " ++ target_table ++ "." ++ col.1]
    else rels
  else rels

/-- detect_relationships: the two nested loops accumulating relationship strings. -/
def detect_relationships (tables : List (String × List (String × String × String))) :
    List String :=
  tables.foldl
    (fun relationships p => p.2.foldl (detect_relationships_step (table_names tables) p.1) relationships)
    []

/-- The Relationship record of the spec data model (section 3). -/
structure Relationship where
  sourceTable : String
  sourceColumn : String
  targetTable : String
  targetColumn : String
deriving DecidableEq

/-- Relationship inference for one column exactly as worded in spec section 4.2:
skip primary keys and names without the _id suffix; emit the singular target
when known, else the plural, else nothing; target column = source column. -/
def spec_rel (names : List String) (table_name : String) (col : String × String × String) :
    Option Relationship :=
  if col.2.2 = "PRIMARY" then none
  else if strEndsWith col.1 "_id" = false then none
  else if names.contains (strDropRight col.1 3) then
    some ⟨table_name, col.1, strDropRight col.1 3, col.1⟩
  else if names.contains (strDropRight col.1 3 ++ "s") then
    some ⟨table_name, col.1, strDropRight col.1 3 ++ "s", col.1⟩
  else none

/-- inferRelationships as worded in the spec: at most one relationship per
qualifying column, in table order then column order. -/
def infer_relationships_spec (tables : List (String × List (String × String × String))) :
    List Relationship :=
  tables.flatMap (fun p => p.2.filterMap (spec_rel (table_names tables) p.1))

/-- The concrete text the code emits for a relationship. -/
def relationship_text (r : Relationship) : String :=
  r.sourceTable ++ "." ++ r.sourceColumn ++ " → " ++ r.targetTable ++ "." ++ r.targetColumn

example :
    detect_relationships
      [("users", [("user_id", "UInt32", "PRIMARY")]),
       ("orders", [("order_id", "UInt32", "PRIMARY"), ("user_id", "UInt32", "")])]
      = ["orders.user_id → users.user_id"] := by decide

example :
    detect_relationships [("order", [("x", "UInt32", "PRIMARY"), ("order_id", "UInt32", "")]),
                          ("orders", [("y", "UInt32", "PRIMARY")])]
      = ["order.order_id → order.order_id"] := by decide

/-! ## mcp_server.py: schema introspection and tool dispatch

The ClickHouse client is modelled as an oracle: each field gives the outcome
(result rows, or the message of the raised exception) of one of the catalog
queries the server issues. get_clickhouse_client itself may fail (connect). -/

/-- A run of n box-drawing horizontal bars (the source writes these runs as
literal characters; built here by replication). -/
def boxRun (n : Nat) : String := String.mk (List.replicate n '─')

/-- A run of n double-line horizontal bars. -/
def dblRun (n : Nat) : String := String.mk (List.replicate n '═')

/-- One row of the system.columns query of get_table_schema
(name, type, default_kind, default_expression, comment). -/
structure ColRow where
  name : String
  typ : String
  default_kind : String
  default_expression : String
  comment : String
deriving DecidableEq

/-- One row of the system.tables query (engine, total_rows, formatted size). -/
structure TblInfoRow where
  engine : String
  total_rows : Nat
  size : String
deriving DecidableEq

/-- The dictionary returned by get_table_schema. -/
structure SchemaInfo where
  table_name : String
  database : String
  columns : List ColRow
  engine : String
  total_rows : Nat
  total_size : String
deriving DecidableEq

/-- Oracle for the ClickHouse client used by mcp_server.py. An .error value
models the query (or the connection) raising an exception with that message. -/
structure ClientBehavior where
  connect : Except String Unit
  colRows : String → Except String (List ColRow)
  tblRows : String → Except String (List TblInfoRow)
  colNames : String → Except String (List String)
  sampleRows : String → Int → Except String (List (List String))

/-- The database name (CLICKHOUSE_DATABASE defaults to testdb). -/
def CLICKHOUSE_DATABASE : String := "testdb"

/-- ALLOWED_TABLES of mcp_server.py lines 27-33. -/
def ALLOWED_TABLES : List String :=
  ["users", "orders", "products", "inventory", "analytics_events"]

/-- get_table_schema (mcp_server.py lines 87-139): two catalog queries inside a
try block whose except re-raises with a wrapping message. When the table-level
query returns no rows the defaults Unknown / 0 / 0B are substituted. -/
def get_table_schema (c : ClientBehavior) (db table_name : String) : Except String SchemaInfo :=
  match c.colRows table_name with
  | .error e => .error ("Error getting schema for table " ++ table_name ++ ": " ++ e)
  | .ok columns =>
    match c.tblRows table_name with
    | .error e => .error ("Error getting schema for table " ++ table_name ++ ": " ++ e)
    | .ok table_info =>
      .ok { table_name := table_name
            database := db
            columns := columns
            engine := match table_info with | [] => "Unknown" | r :: _ => r.engine
            total_rows := match table_info with | [] => 0 | r :: _ => r.total_rows
            total_size := match table_info with | [] => "0B" | r :: _ => r.size }

/-- The per-column rows of format_schema_response (lines 156-161): default
falls back to the text None when default_kind is empty (Python truthiness),
comment to the empty string, both cut to 30 characters. -/
def schema_response_rows (cols : List ColRow) : List (List String) :=
  cols.map (fun col =>
    let dflt := if col.default_kind ≠ "" then col.default_expression else "None"
    let cmnt := if col.comment ≠ "" then col.comment else ""
    [col.name, col.typ, strTake dflt 30, strTake cmnt 30])

/-- format_schema_response (mcp_server.py lines 141-164). -/
def format_schema_response (schema_info : SchemaInfo) : String :=
  "\n╔" ++ dblRun 60 ++ "╗\n"
    ++ "║ TABLE: " ++ padLeftJustify schema_info.table_name 52 ++ " ║\n"
    ++ "║ Database: " ++ padLeftJustify schema_info.database 49 ++ " ║\n"
    ++ "║ Engine: " ++ padLeftJustify schema_info.engine 51 ++ " ║\n"
    ++ "║ Total Rows: " ++ padLeftJustify (toString schema_info.total_rows) 47 ++ " ║\n"
    ++ "║ Total Size: " ++ padLeftJustify schema_info.total_size 47 ++ " ║\n"
    ++ "╚" ++ dblRun 60 ++ "╝\n\nSCHEMA STRUCTURE:\n"
    ++ format_table_as_ascii ["Column Name", "Type", "Default", "Comment"]
        (schema_response_rows schema_info.columns)

/-- The arguments dict of a call_tool invocation. -/
structure Args where
  table_name : Option String
  limit : Option Int
deriving DecidableEq

/-- One row of the list_tables listing (lines 239-262): per-table inner
try/except degrading to Error / Not Found rows. -/
def list_tables_row (c : ClientBehavior) (table : String) : List String :=
  match c.tblRows table with
  | .error _ => [table, "Error", "-", "-"]
  | .ok [] => [table, "Not Found", "0", "0B"]
  | .ok (r :: _) => [table, r.engine, toString r.total_rows, r.size]

/-- limit = min(arguments.get("limit", 5), 10) at mcp_server.py line 271. -/
def effective_sample_limit (args : Args) : Int := min (args.limit.getD 5) 10

/-- The try-block body of call_tool (mcp_server.py lines 220-304): the result
texts, or the message of an exception escaping to the outer except. -/
def call_tool_body (c : ClientBehavior) (name : String) (args : Args) :
    Except String (List String) :=
  if name = "get_table_schema" then
    match args.table_name with
    | none =>
      .ok ["❌ Table 'None' is not accessible. Available: " ++ pyJoin ", " ALLOWED_TABLES]
    | some t =>
      if ALLOWED_TABLES.contains t then
        match get_table_schema c CLICKHOUSE_DATABASE t with
        | .error e => .error e
        | .ok schema_info => .ok [format_schema_response schema_info]
      else .ok ["❌ Table '" ++ t ++ "' is not accessible. Available: " ++ pyJoin ", " ALLOWED_TABLES]
  else if name = "list_tables" then
    .ok ["📊 Available ClickHouse Tables:\n\n"
          ++ format_table_as_ascii ["Table Name", "Engine", "Rows", "Size"]
              (ALLOWED_TABLES.map (list_tables_row c))]
  else if name = "get_sample_data" then
    let limit := effective_sample_limit args
    match args.table_name with
    | none => .ok ["❌ Table 'None' is not accessible"]
    | some t =>
      if ALLOWED_TABLES.contains t then
        match c.colNames t with
        | .error e => .error e
        | .ok column_names =>
          match c.sampleRows t limit with
          | .error e => .error e
          | .ok result_rows =>
            .ok ["📋 Sample Data from '" ++ t ++ "' (first " ++ toString limit ++ " rows):\n\n"
                  ++ format_table_as_ascii column_names result_rows]
      else .ok ["❌ Table '" ++ t ++ "' is not accessible"]
  else .ok ["Unknown tool: " ++ name]

/-- Outcome of one call_tool invocation: the TextContent texts plus how often a
client connection was acquired and released (the finally block). -/
structure CallResult where
  texts : List String
  acquired : Nat
  released : Nat
deriving DecidableEq

/-- call_tool (mcp_server.py lines 215-315): client creation inside try; a
failed creation jumps to except (finally then has no client to close, the
NameError of client.close() being swallowed); otherwise the finally block
closes the created client exactly once on every path, and any exception from
the body is converted to an error text. -/
def call_tool (c : ClientBehavior) (name : String) (args : Args) : CallResult :=
  match c.connect with
  | .error e => { texts := ["❌ Error: " ++ e], acquired := 0, released := 0 }
  | .ok _ =>
    { texts :=
        match call_tool_body c name args with
        | .ok texts => texts
        | .error e => ["❌ Error: " ++ e]
      acquired := 1
      released := 1 }

/-- A client over an empty catalog: connection fine, every query returns no rows. -/
def emptyCatalogClient : ClientBehavior :=
  { connect := .ok ()
    colRows := fun _ => .ok []
    tblRows := fun _ => .ok []
    colNames := fun _ => .ok []
    sampleRows := fun _ _ => .ok [] }

example :
    get_table_schema emptyCatalogClient "testdb" "users"
      = .ok { table_name := "users", database := "testdb", columns := []
              engine := "Unknown", total_rows := 0, total_size := "0B" } := rfl

example :
    (call_tool emptyCatalogClient "drop_table" { table_name := none, limit := none }).texts
      = ["Unknown tool: drop_table"] := by decide

example : effective_sample_limit { table_name := none, limit := some (-3) } = -3 := by decide

/-! ## web_app.py: mock data, live introspection and tool dispatch -/

/-- The list_tables_with_columns mock text of get_mock_data (web_app.py lines 52-104). -/
def mock_list_tables_text : String :=
  pyJoin "\n" [
    "DATABASE TABLES AND COLUMNS:",
    "",
    "📋 USERS TABLE:",
    "• user_id (UInt32) - Primary key",
    "• username (String) - User login name",
    "• email (String) - Email address",
    "• first_name (String) - First name",
    "• last_name (String) - Last name",
    "• created_at (DateTime) - Account creation date",
    "• is_active (UInt8) - Active status (0/1)",
    "• account_type (Enum8) - Account type: free, premium, enterprise",
    "",
    "📋 ORDERS TABLE:",
    "• order_id (UInt32) - Primary key",
    "• user_id (UInt32) - Foreign key to users",
    "• product_id (UInt32) - Foreign key to products",
    "• quantity (UInt16) - Order quantity",
    "• total_amount (Decimal(10,2)) - Total order amount",
    "• order_date (DateTime) - Order timestamp",
    "• status (Enum8) - Order status: pending, processing, shipped, delivered, cancelled",
    "• shipping_address (String) - Delivery address",
    "",
    "📋 PRODUCTS TABLE:",
    "• product_id (UInt32) - Primary key",
    "• product_name (String) - Product name",
    "• category (String) - Product category",
    "• price (Decimal(10,2)) - Product price",
    "• stock_quantity (UInt32) - Available stock",
    "• manufacturer (String) - Manufacturer name",
    "• created_at (DateTime) - Product creation date",
    "• is_available (UInt8) - Availability status (0/1)",
    "",
    "📋 INVENTORY TABLE:",
    "• inventory_id (UInt32) - Primary key",
    "• product_id (UInt32) - Foreign key to products",
    "• warehouse_id (UInt16) - Warehouse identifier",
    "• quantity_available (UInt32) - Available quantity",
    "• quantity_reserved (UInt32) - Reserved quantity",
    "• last_restocked (DateTime) - Last restock date",
    "• reorder_level (UInt32) - Minimum stock level",
    "• reorder_quantity (UInt32) - Reorder amount",
    "",
    "📋 ANALYTICS_EVENTS TABLE:",
    "• event_id (UUID) - Primary key",
    "• user_id (UInt32) - Foreign key to users",
    "• event_type (String) - Type of event",
    "• event_timestamp (DateTime) - Event time",
    "• page_url (String) - Page URL",
    "• session_id (String) - Session identifier",
    "• device_type (Enum8) - Device: desktop, mobile, tablet",
    "• browser (String) - Browser name",
    "• country (String) - User country",
    "• properties (String) - Additional JSON properties"]

/-- The get_database_schema mock text of get_mock_data (web_app.py lines 109-192). -/
def mock_schema_text : String :=
  pyJoin "\n" [
    "DATABASE SCHEMA WITH RELATIONSHIPS:",
    "",
    "┌" ++ boxRun 53 ++ "┐",
    "│                    USERS TABLE                      │",
    "├" ++ boxRun 18 ++ "┬" ++ boxRun 17 ++ "┬" ++ boxRun 16 ++ "┤",
    "│ Column Name      │ Type            │ Key            │",
    "├" ++ boxRun 18 ++ "┼" ++ boxRun 17 ++ "┼" ++ boxRun 16 ++ "┤",
    "│ user_id          │ UInt32          │ PRIMARY        │",
    "│ username         │ String          │                │",
    "│ email            │ String          │                │",
    "│ first_name       │ String          │                │",
    "│ last_name        │ String          │                │",
    "│ created_at       │ DateTime        │                │",
    "│ is_active        │ UInt8           │                │",
    "│ account_type     │ Enum8           │                │",
    "└" ++ boxRun 18 ++ "┴" ++ boxRun 17 ++ "┴" ++ boxRun 16 ++ "┘",
    "",
    "┌" ++ boxRun 53 ++ "┐",
    "│                    ORDERS TABLE                     │",
    "├" ++ boxRun 18 ++ "┬" ++ boxRun 17 ++ "┬" ++ boxRun 16 ++ "┤",
    "│ Column Name      │ Type            │ Key            │",
    "├" ++ boxRun 18 ++ "┼" ++ boxRun 17 ++ "┼" ++ boxRun 16 ++ "┤",
    "│ order_id         │ UInt32          │ PRIMARY        │",
    "│ user_id          │ UInt32          │ FOREIGN        │",
    "│ product_id       │ UInt32          │ FOREIGN        │",
    "│ quantity         │ UInt16          │                │",
    "│ total_amount     │ Decimal(10,2)   │                │",
    "│ order_date       │ DateTime        │                │",
    "│ status           │ Enum8           │                │",
    "│ shipping_address │ String          │                │",
    "└" ++ boxRun 18 ++ "┴" ++ boxRun 17 ++ "┴" ++ boxRun 16 ++ "┘",
    "",
    "┌" ++ boxRun 53 ++ "┐",
    "│                   PRODUCTS TABLE                    │",
    "├" ++ boxRun 18 ++ "┬" ++ boxRun 17 ++ "┬" ++ boxRun 16 ++ "┤",
    "│ Column Name      │ Type            │ Key            │",
    "├" ++ boxRun 18 ++ "┼" ++ boxRun 17 ++ "┼" ++ boxRun 16 ++ "┤",
    "│ product_id       │ UInt32          │ PRIMARY        │",
    "│ product_name     │ String          │                │",
    "│ category         │ String          │                │",
    "│ price            │ Decimal(10,2)   │                │",
    "│ stock_quantity   │ UInt32          │                │",
    "│ manufacturer     │ String          │                │",
    "│ created_at       │ DateTime        │                │",
    "│ is_available     │ UInt8           │                │",
    "└" ++ boxRun 18 ++ "┴" ++ boxRun 17 ++ "┴" ++ boxRun 16 ++ "┘",
    "",
    "┌" ++ boxRun 53 ++ "┐",
    "│                  INVENTORY TABLE                    │",
    "├" ++ boxRun 18 ++ "┬" ++ boxRun 17 ++ "┬" ++ boxRun 16 ++ "┤",
    "│ Column Name      │ Type            │ Key            │",
    "├" ++ boxRun 18 ++ "┼" ++ boxRun 17 ++ "┼" ++ boxRun 16 ++ "┤",
    "│ inventory_id     │ UInt32          │ PRIMARY        │",
    "│ product_id       │ UInt32          │ FOREIGN        │",
    "│ warehouse_id     │ UInt16          │                │",
    "│ quantity_available│ UInt32         │                │",
    "│ quantity_reserved│ UInt32          │                │",
    "│ last_restocked   │ DateTime        │                │",
    "│ reorder_level    │ UInt32          │                │",
    "│ reorder_quantity │ UInt32          │                │",
    "└" ++ boxRun 18 ++ "┴" ++ boxRun 17 ++ "┴" ++ boxRun 16 ++ "┘",
    "",
    "┌" ++ boxRun 53 ++ "┐",
    "│                ANALYTICS_EVENTS TABLE              │",
    "├" ++ boxRun 18 ++ "┬" ++ boxRun 17 ++ "┬" ++ boxRun 16 ++ "┤",
    "│ Column Name      │ Type            │ Key            │",
    "├" ++ boxRun 18 ++ "┼" ++ boxRun 17 ++ "┼" ++ boxRun 16 ++ "┤",
    "│ event_id         │ UUID            │ PRIMARY        │",
    "│ user_id          │ UInt32          │ FOREIGN        │",
    "│ event_type       │ String          │                │",
    "│ event_timestamp  │ DateTime        │                │",
    "│ page_url         │ String          │                │",
    "│ session_id       │ String          │                │",
    "│ device_type      │ Enum8           │                │",
    "│ browser          │ String          │                │",
    "│ country          │ String          │                │",
    "│ properties       │ String          │                │",
    "└" ++ boxRun 18 ++ "┴" ++ boxRun 17 ++ "┴" ++ boxRun 16 ++ "┘",
    "",
    "🔗 TABLE RELATIONSHIPS:",
    "• orders.user_id        → users.user_id",
    "• orders.product_id     → products.product_id",
    "• inventory.product_id  → products.product_id",
    "• analytics_events.user_id → users.user_id"]

/-- get_mock_data (web_app.py lines 47-196): fixed demonstration texts for the
two known tools, the placeholder Tool result for anything else. The arguments
dict is never read. -/
def get_mock_data (tool_name : String) (_arguments : Args) : String :=
  if tool_name = "list_tables_with_columns" then mock_list_tables_text
  else if tool_name = "get_database_schema" then mock_schema_text
  else "Tool result"

/-- Oracle for the ClickHouse client used by web_app.py: get_clickhouse_client
returns None on failure (connectOk = false); the two database-wide catalog
queries either return their rows or raise with a message. -/
structure WebDb where
  connectOk : Bool
  colRows : Except String (List (String × String × String))
  schemaRows : Except String (List (String × String × String × Bool))

/-- Insertion step of the table-grouping dict of get_live_tables_with_columns
(lines 218-223): Python dicts keep insertion order; appending a column to an
existing key, or a fresh key at the end. -/
def add_column (acc : List (String × List (String × String)))
    (row : String × String × String) : List (String × List (String × String)) :=
  if (acc.map Prod.fst).contains row.1 then
    acc.map (fun p => if p.1 = row.1 then (p.1, p.2 ++ [(row.2.1, row.2.2)]) else p)
  else acc ++ [(row.1, [(row.2.1, row.2.2)])]

/-- Grouping of system.columns rows by table, in insertion order. -/
def group_columns (rows : List (String × String × String)) :
    List (String × List (String × String)) :=
  rows.foldl add_column []

/-- Insertion step of the grouping dict of get_live_database_schema (lines
259-266): the key column becomes PRIMARY or the empty string. -/
def add_schema_column (acc : List (String × List (String × String × String)))
    (row : String × String × String × Bool) :
    List (String × List (String × String × String)) :=
  let key_type := if row.2.2.2 then "PRIMARY" else ""
  if (acc.map Prod.fst).contains row.1 then
    acc.map (fun p => if p.1 = row.1 then (p.1, p.2 ++ [(row.2.1, row.2.2.1, key_type)]) else p)
  else acc ++ [(row.1, [(row.2.1, row.2.2.1, key_type)])]

/-- Grouping of the schema query rows by table. -/
def group_schema_columns (rows : List (String × String × String × Bool)) :
    List (String × List (String × String × String)) :=
  rows.foldl add_schema_column []

/-- One table block of get_live_tables_with_columns (lines 227-231). -/
def table_columns_block (p : String × List (String × String)) : String :=
  "📋 " ++ pyUpper p.1 ++ " TABLE:\n"
    ++ String.join (p.2.map (fun c => "• " ++ c.1 ++ " (" ++ c.2 ++ ")\n"))
    ++ "\n"

/-- get_live_tables_with_columns (web_app.py lines 198-236): the try block
catches a raising query and degrades to an error text. -/
def get_live_tables_with_columns (w : WebDb) : String :=
  match w.colRows with
  | .error e => "Error getting live tables: " ++ e
  | .ok result_rows =>
    if result_rows.isEmpty then "No tables found in database"
    else "DATABASE TABLES AND COLUMNS:\n\n"
          ++ String.join ((group_columns result_rows).map table_columns_block)

/-- Python str.center(53): CPython computes left = marg // 2 + (marg & width & 1);
width 53 is odd, so the bitwise term is marg % 2. -/
def pyCenter53 (s : String) : String :=
  if 53 ≤ s.length then s
  else
    let marg := 53 - s.length
    let left := marg / 2 + marg % 2
    String.mk (List.replicate left ' ') ++ s ++ String.mk (List.replicate (marg - left) ' ')

/-- One table block of get_live_database_schema (lines 272-282). -/
def schema_table_block (p : String × List (String × String × String)) : String :=
  "┌" ++ boxRun 53 ++ "┐\n"
    ++ "│" ++ pyCenter53 (pyUpper p.1) ++ "│\n"
    ++ "├" ++ boxRun 18 ++ "┬" ++ boxRun 17 ++ "┬" ++ boxRun 16 ++ "┤\n"
    ++ "│ Column Name      │ Type            │ Key            │\n"
    ++ "├" ++ boxRun 18 ++ "┼" ++ boxRun 17 ++ "┼" ++ boxRun 16 ++ "┤\n"
    ++ String.join (p.2.map (fun c =>
         "│ " ++ padLeftJustify c.1 16 ++ " │ " ++ padLeftJustify c.2.1 15
           ++ " │ " ++ padLeftJustify c.2.2 14 ++ " │\n"))
    ++ "└" ++ boxRun 18 ++ "┴" ++ boxRun 17 ++ "┴" ++ boxRun 16 ++ "┘\n\n"

/-- get_live_database_schema (web_app.py lines 238-294): table blocks followed
by the detected relationships section when any exist. -/
def get_live_database_schema (w : WebDb) : String :=
  match w.schemaRows with
  | .error e => "Error getting live schema: " ++ e
  | .ok result_rows =>
    if result_rows.isEmpty then "No tables found in database"
    else
      let tables := group_schema_columns result_rows
      let output := "DATABASE SCHEMA WITH RELATIONSHIPS:\n\n"
                      ++ String.join (tables.map schema_table_block)
      let relationships := detect_relationships tables
      if relationships.isEmpty then output
      else output ++ "🔗 TABLE RELATIONSHIPS:\n"
            ++ String.join (relationships.map (fun rel => "• " ++ rel ++ "\n"))

/-- Outcome of one call_mcp_tool invocation: the returned text plus how often a
connection was acquired and released. -/
structure WebCallResult where
  text : String
  acquired : Nat
  released : Nat
deriving DecidableEq

/-- call_mcp_tool (web_app.py lines 312-333): a failed client construction
returns None, so the function falls back to mock data without ever holding a
connection; otherwise the known tools run the live queries and the finally
block closes the client exactly once; unknown tools fall through to mock data. -/
def call_mcp_tool (w : WebDb) (tool_name : String) (arguments : Args) : WebCallResult :=
  if w.connectOk = false then
    { text := get_mock_data tool_name arguments, acquired := 0, released := 0 }
  else
    { text :=
        if tool_name = "list_tables_with_columns" then get_live_tables_with_columns w
        else if tool_name = "get_database_schema" then get_live_database_schema w
        else get_mock_data tool_name arguments
      acquired := 1
      released := 1 }

example :
    call_mcp_tool { connectOk := true, colRows := .ok [], schemaRows := .ok [] }
        "drop_table" { table_name := none, limit := none }
      = { text := "Tool result", acquired := 1, released := 1 } := by decide

example :
    (call_mcp_tool { connectOk := false, colRows := .ok [], schemaRows := .ok [] }
        "list_tables_with_columns" { table_name := none, limit := none }).text
      = mock_list_tables_text := rfl

example :
    group_schema_columns [("users", "user_id", "UInt32", true),
                          ("orders", "order_id", "UInt32", true),
                          ("orders", "user_id", "UInt32", false)]
      = [("users", [("user_id", "UInt32", "PRIMARY")]),
         ("orders", [("order_id", "UInt32", "PRIMARY"), ("user_id", "UInt32", "")])] := by decide

/-! ## Auxiliary lemmas -/

theorem length_strTake (s : String) (n : Nat) : (strTake s n).length = min n s.length :=
  List.length_take n s.data

theorem length_padLeftJustify (s : String) (w : Nat) :
    (padLeftJustify s w).length = s.length + (w - s.length) := by
  unfold padLeftJustify
  rw [String.length_append]
  congr 1
  exact List.length_replicate _ _

theorem length_ascii_field (s : String) (w : Nat) : (ascii_field s w).length = w + 3 := by
  unfold ascii_field
  rw [String.length_append, String.length_append, length_padLeftJustify, length_strTake]
  have h1 : (" " : String).length = 1 := rfl
  have h2 : (" |" : String).length = 2 := rfl
  have h3 : min w s.length ≤ w := Nat.min_le_left _ _
  omega

theorem getD_map_range {α : Type} (n : Nat) (f : Nat → α) (d : α) (i : Nat) (h : i < n) :
    ((List.range n).map f).getD i d = f i := by
  rw [List.getD_eq_getElem _ _ (by simpa using h), List.getElem_map, List.getElem_range]

theorem foldl_max_init {α : Type} (f : α → Nat) :
    ∀ (l : List α) (a : Nat),
      l.foldl (fun m x => max m (f x)) a = max a (l.foldl (fun m x => max m (f x)) 0)
  | [], a => by simp
  | x :: t, a => by
    simp only [List.foldl_cons]
    rw [foldl_max_init f t, foldl_max_init f t (max 0 (f x))]
    omega

theorem foldl_width_eq (i : Nat) :
    ∀ (rows : List (List String)) (a : Nat),
      rows.foldl (fun m row => if i < row.length then max m (row.getD i "").length else m) a
        = rows.foldl (fun m row => max m (if i < row.length then (row.getD i "").length else 0)) a
  | [], a => rfl
  | r :: t, a => by
    simp only [List.foldl_cons]
    have hstep : (if i < r.length then max a (r.getD i "").length else a)
        = max a (if i < r.length then (r.getD i "").length else 0) := by
      by_cases h : i < r.length <;> simp [h]
    rw [hstep, foldl_width_eq i t]

/-- The claim-side width formula: maximum cell length at index i over all rows
(a row with no cell at index i contributes nothing). -/
def max_cell_len (rows : List (List String)) (i : Nat) : Nat :=
  rows.foldl (fun m row => max m (if i < row.length then (row.getD i "").length else 0)) 0

theorem ascii_col_width_eq (rows : List (List String)) (i : Nat) (h : String) :
    ascii_col_width rows i h = min (max h.length (max_cell_len rows i)) 50 := by
  unfold ascii_col_width max_cell_len
  rw [foldl_width_eq, foldl_max_init]

theorem length_pyJoin (sep : String) :
    ∀ L : List String, L ≠ [] →
      (pyJoin sep L).length = (L.map String.length).sum + sep.length * (L.length - 1)
  | [], h => absurd rfl h
  | [x], _ => by simp [pyJoin]
  | x :: y :: t, _ => by
    have ih := length_pyJoin sep (y :: t) (by simp)
    simp only [pyJoin, String.length_append, List.map_cons, List.sum_cons, List.length_cons] at *
    rw [ih]
    have : sep.length * (t.length + 1 + 1 - 1) = sep.length * (t.length + 1 - 1) + sep.length := by
      simp [Nat.mul_succ]
    omega

theorem length_ascii_table_lines (headers : List String) (rows : List (List String)) :
    (ascii_table_lines headers rows).length = rows.length + 4 := by
  simp [ascii_table_lines]

theorem foldl_append_eq {α β : Type} (g : α → List β) :
    ∀ (l : List α) (acc : List β), l.foldl (fun a x => a ++ g x) acc = acc ++ l.flatMap g
  | [], acc => by simp
  | x :: t, acc => by
    simp only [List.foldl_cons, List.flatMap_cons]
    rw [foldl_append_eq g t, List.append_assoc]

theorem flatMap_toList_eq_filterMap {α β γ : Type} (f : α → Option β) (h : β → γ) :
    ∀ l : List α, l.flatMap (fun x => ((f x).toList.map h)) = (l.filterMap f).map h
  | [] => rfl
  | x :: t => by
    cases hf : f x <;>
      simp [List.filterMap_cons, hf, flatMap_toList_eq_filterMap f h t]

theorem detect_relationships_step_eq (names : List String) (tbl : String)
    (rels : List String) (col : String × String × String) :
    detect_relationships_step names tbl rels col
      = rels ++ ((spec_rel names tbl col).toList.map relationship_text) := by
  unfold detect_relationships_step spec_rel relationship_text
  by_cases hp : col.2.2 = "PRIMARY"
  · cases he : strEndsWith col.1 "_id" <;> simp [hp, he]
  · cases he : strEndsWith col.1 "_id"
    · simp [hp, he]
    · cases h1 : names.contains (strDropRight col.1 3) <;>
        cases h2 : names.contains (strDropRight col.1 3 ++ "s") <;>
          simp_all

/-- Claim C1: detect_relationships is exactly the spec-side inference — for every
tables mapping, every non-primary-key column ending in _id whose stripped name E
(or E plus s, singular checked first, first match winning) is a known table name
emits exactly one relationship, whose target column equals the source column;
primary-key columns and columns without the _id suffix emit nothing. -/
theorem detect_relationships_spec_equiv
    (tables : List (String × List (String × String × String))) :
    detect_relationships tables = (infer_relationships_spec tables).map relationship_text
  ∧ (infer_relationships_spec tables).all
      (fun r => r.targetColumn == r.sourceColumn) = true := by
  constructor
  · unfold detect_relationships infer_relationships_spec
    have hstep : ∀ (p : String × List (String × String × String)) (acc : List String),
        p.2.foldl (detect_relationships_step (table_names tables) p.1) acc
          = acc ++ p.2.flatMap
              (fun col => ((spec_rel (table_names tables) p.1 col).toList.map relationship_text)) := by
      intro p acc
      have hfun : detect_relationships_step (table_names tables) p.1
          = fun a col => a ++ ((spec_rel (table_names tables) p.1 col).toList.map relationship_text) :=
        funext fun a => funext fun col => detect_relationships_step_eq _ _ a col
      rw [hfun, foldl_append_eq]
    calc
      tables.foldl
          (fun relationships p =>
            p.2.foldl (detect_relationships_step (table_names tables) p.1) relationships) []
        = tables.foldl
            (fun relationships p =>
              relationships ++ p.2.flatMap
                (fun col => ((spec_rel (table_names tables) p.1 col).toList.map relationship_text)))
            [] := by
          congr 1
          funext relationships p
          exact hstep p relationships
      _ = tables.flatMap
            (fun p => p.2.flatMap
              (fun col => ((spec_rel (table_names tables) p.1 col).toList.map relationship_text))) := by
          rw [foldl_append_eq]
          simp
      _ = (tables.flatMap (fun p => p.2.filterMap (spec_rel (table_names tables) p.1))).map
            relationship_text := by
          rw [List.map_flatMap]
          congr 1
          funext p
          rw [flatMap_toList_eq_filterMap]
  · refine List.all_eq_true.mpr ?_
    intro r hr
    simp only [infer_relationships_spec, List.mem_flatMap, List.mem_filterMap] at hr
    obtain ⟨p, _, col, _, hrel⟩ := hr
    unfold spec_rel at hrel
    split at hrel
    · exact absurd hrel (by simp)
    · split at hrel
      · exact absurd hrel (by simp)
      · split at hrel
        · injection hrel with h
          rw [← h]
          simp
        · split at hrel
          · injection hrel with h
            rw [← h]
            simp
          · exact absurd hrel (by simp)

/-- Claim C2: detect_intent lower-cases the utterance and matches the two keyword
sets in fixed priority order (schema set first, listing set second, none last),
agreeing with the spec-side classify on every utterance; the three example
utterances classify as stated. -/
theorem detect_intent_spec_equiv :
    (∀ message : String, detect_intent message = (classify message, none))
  ∧ detect_intent "show me the schema for orders" = ("get_database_schema", none)
  ∧ detect_intent "list the tables" = ("list_tables_with_columns", none)
  ∧ detect_intent "hello there" = ("none", none) := by
  refine ⟨?_, by decide, by decide, by decide⟩
  intro message
  by_cases h1 : (["schema", "create", "ddl", "definition"].any
      (fun word => strContains (pyLower message) word)) = true
  · simp [detect_intent, classify, h1]
  · by_cases h2 : (["list", "show", "tables", "columns", "structure", "database"].any
        (fun word => strContains (pyLower message) word)) = true
    · simp [detect_intent, classify, h1, h2]
    · simp [detect_intent, classify, h1, h2]

/-- Claim C3 counterexample: on the reply with text after the closing marker
preceded by a space, the code strips the remainder, so the visible reply is not
"everything after the first closing marker" (which would keep the space). -/
theorem strip_think_counterexample :
    strip_think "<think>r</think> Final." = "Final."
  ∧ strFind "<think>r</think> Final." "</think>" = some 8
  ∧ strDrop "<think>r</think> Final." (8 + 8) = " Final."
  ∧ strip_think "<think>r</think> Final." ≠ strDrop "<think>r</think> Final." (8 + 8) := by
  exact ⟨by decide, by decide, by decide, by decide⟩

/-- Claim C3 amended: replies starting with the opening marker whose first
closing marker sits at index i become the remainder after the marker with
surrounding whitespace stripped (str.strip); with no closing marker, the
remainder after the first blank-line break, unstripped; with neither, and for
replies not starting with the marker, the text is kept; the example reply
"<think>reasoning</think>Final answer." becomes "Final answer.". -/
theorem strip_think_amended :
    (∀ (s : String) (i : Nat), strStartsWith s "<think>" = true →
       strFind s "</think>" = some i → strip_think s = pyStrip (strDrop s (i + 8)))
  ∧ (∀ (s : String) (j : Nat), strStartsWith s "<think>" = true →
       strFind s "</think>" = none → strFind s "\n\n" = some j →
       strip_think s = strDrop s (j + 2))
  ∧ (∀ s : String, strStartsWith s "<think>" = true → strFind s "</think>" = none →
       strFind s "\n\n" = none → strip_think s = s)
  ∧ (∀ s : String, strStartsWith s "<think>" = false → strip_think s = s)
  ∧ strip_think "<think>reasoning</think>Final answer." = "Final answer."
  ∧ strip_think "<think>reasoning\n\nFinal answer." = "Final answer." := by
  refine ⟨?_, ?_, ?_, ?_, by decide, by decide⟩ <;> intros <;> simp_all [strip_think]

/-- Claim C3 amended witness. -/
theorem strip_think_amended_witness :
    strip_think "<think>a</think>ok" = pyStrip (strDrop "<think>a</think>ok" (8 + 8)) :=
  strip_think_amended.1 "<think>a</think>ok" 8 (by decide) (by decide)

/-- Claim C4 counterexample: with a reachable client whose table-level query
returns no rows, get_table_schema does not fail — it succeeds with the
substitute defaults Unknown / 0 / 0B. -/
theorem get_table_schema_counterexample :
    get_table_schema emptyCatalogClient "testdb" "users"
      = .ok { table_name := "users", database := "testdb", columns := []
              engine := "Unknown", total_rows := 0, total_size := "0B" }
  ∧ (get_table_schema emptyCatalogClient "testdb" "users").isOk = true :=
  ⟨rfl, rfl⟩

/-- Claim C4 amended: whenever the column query succeeds and the table-level
query returns no rows, get_table_schema succeeds with the default values
engine Unknown, total_rows 0, total_size 0B (it raises only when one of the
two catalog queries itself raises). -/
theorem get_table_schema_amended (c : ClientBehavior) (db t : String) (cols : List ColRow)
    (h1 : c.colRows t = .ok cols) (h2 : c.tblRows t = .ok []) :
    get_table_schema c db t
      = .ok { table_name := t, database := db, columns := cols
              engine := "Unknown", total_rows := 0, total_size := "0B" } := by
  unfold get_table_schema
  rw [h1, h2]

/-- Claim C4 amended witness. -/
theorem get_table_schema_amended_witness :
    get_table_schema emptyCatalogClient "db1" "orders"
      = .ok { table_name := "orders", database := "db1", columns := []
              engine := "Unknown", total_rows := 0, total_size := "0B" } :=
  get_table_schema_amended emptyCatalogClient "db1" "orders" [] rfl rfl

/-- Claim C5 counterexample: the two duplicated renderers disagree already on a
one-header table — mcp_server joins the lines with a newline, web_app with the
literal two-character sequence backslash-n. -/
theorem format_table_divergence_counterexample :
    format_table_as_ascii ["a"] [] ≠ web_format_table_as_ascii ["a"] []
  ∧ format_table_as_ascii ["a"] [] = "+---+\n| a |\n+---+\n+---+"
  ∧ web_format_table_as_ascii ["a"] [] = "+---+\\n| a |\\n+---+\\n+---+" :=
  ⟨by decide, by decide, by decide⟩

/-- Claim C5 amended: the two renderer copies compute the same list of lines and
the same sentinel on empty input, but join the lines with different separators
(newline versus the literal backslash-n pair), so their outputs agree exactly
when both inputs are empty and differ on every other input. -/
theorem format_table_join_divergence :
    (∀ (headers : List String) (rows : List (List String)),
       format_table_as_ascii headers rows
           = (if headers.isEmpty && rows.isEmpty then "No data available"
              else pyJoin "\n" (ascii_table_lines headers rows))
         ∧ web_format_table_as_ascii headers rows
           = (if headers.isEmpty && rows.isEmpty then "No data available"
              else pyJoin "\\n" (ascii_table_lines headers rows)))
  ∧ format_table_as_ascii [] [] = web_format_table_as_ascii [] []
  ∧ (∀ (headers : List String) (rows : List (List String)), ¬(headers = [] ∧ rows = []) →
       format_table_as_ascii headers rows ≠ web_format_table_as_ascii headers rows) := by
  refine ⟨fun _ _ => ⟨rfl, rfl⟩, rfl, ?_⟩
  intro headers rows hne heq
  have hcond : (headers.isEmpty && rows.isEmpty) = false := by
    cases headers <;> cases rows <;> simp_all
  have hL : ascii_table_lines headers rows ≠ [] := by
    have := length_ascii_table_lines headers rows
    intro hnil
    rw [hnil] at this
    simp at this
  rw [format_table_as_ascii, web_format_table_as_ascii, hcond] at heq
  simp only [Bool.false_eq_true, if_false] at heq
  have hlen := congrArg String.length heq
  rw [length_pyJoin _ _ hL, length_pyJoin _ _ hL] at hlen
  have h1 : ("\n" : String).length = 1 := rfl
  have h2 : ("\\n" : String).length = 2 := rfl
  rw [h1, h2] at hlen
  have hk := length_ascii_table_lines headers rows
  omega

/-- Claim C5 amended witness. -/
theorem format_table_join_divergence_witness :
    format_table_as_ascii ["x", "y"] [["1"]] ≠ web_format_table_as_ascii ["x", "y"] [["1"]] :=
  format_table_join_divergence.2.2 ["x", "y"] [["1"]] (by simp)

/-- Claim C8: the rendered width of column i is min(max(header length, maximum
cell length at index i over all rows), 50), and every rendered cell occupies
exactly width + 3 characters whatever the content length — content beyond the
width is truncated, never wrapped. -/
theorem ascii_col_widths_spec :
    (∀ (headers : List String) (rows : List (List String)) (i : Nat), i < headers.length →
       (ascii_col_widths headers rows).getD i 0
         = min (max (headers.getD i "").length (max_cell_len rows i)) 50)
  ∧ (∀ (s : String) (w : Nat), (ascii_field s w).length = w + 3)
  ∧ (∀ (s : String) (w : Nat), (strTake s w).length ≤ w) := by
  refine ⟨?_, length_ascii_field, ?_⟩
  · intro headers rows i hi
    unfold ascii_col_widths
    rw [getD_map_range _ _ _ _ hi, ascii_col_width_eq]
  · intro s w
    rw [length_strTake]
    exact Nat.min_le_left _ _

/-- Claim C8 witness. -/
theorem ascii_col_widths_spec_witness :
    (ascii_col_widths ["ab"] [["xyz"], ["q", "longer"]]).getD 0 0
      = min (max (("ab" : String).length) (max_cell_len [["xyz"], ["q", "longer"]] 0)) 50 :=
  ascii_col_widths_spec.1 ["ab"] [["xyz"], ["q", "longer"]] 0 (by decide)

/-- Claim C9: the empty render returns the fixed sentinel; every rendered data
row has exactly one cell per header; a missing cell of a short row renders as
the empty-string cell; surplus cells of a long row are ignored (the row line
only depends on the first len(headers) cells). The embedding is a total
function, so no input can raise. -/
theorem render_shape_safety :
    format_table_as_ascii [] [] = "No data available"
  ∧ (∀ (headers : List String) (rows : List (List String)) (row : List String),
       (ascii_row_fields headers.length (ascii_col_widths headers rows) row).length
         = headers.length)
  ∧ (∀ (n : Nat) (widths : List Nat) (row : List String) (i : Nat), i < n → row.length ≤ i →
       (ascii_row_fields n widths row).getD i "" = ascii_field "" (widths.getD i 0))
  ∧ (∀ (n : Nat) (widths : List Nat) (row : List String),
       ascii_row_line n widths row = ascii_row_line n widths (row.take n)) := by
  refine ⟨rfl, ?_, ?_, ?_⟩
  · intro headers rows row
    simp [ascii_row_fields]
  · intro n widths row i hi hrow
    unfold ascii_row_fields
    rw [getD_map_range _ _ _ _ hi, if_neg (by omega)]
  · intro n widths row
    unfold ascii_row_line ascii_row_fields
    congr 1
    apply congrArg
    apply List.map_congr_left
    intro i hi
    rw [List.mem_range] at hi
    have htl : (row.take n).length = min n row.length := List.length_take n row
    congr 1
    by_cases hr : i < row.length
    · rw [if_pos hr, if_pos (by omega)]
      rw [List.getD_eq_getElem?_getD, List.getD_eq_getElem?_getD]
      congr 1
      simp [List.getElem?_take, hi]
    · rw [if_neg hr, if_neg (by omega)]

/-- Claim C9 witness. -/
theorem render_shape_safety_witness :
    (ascii_row_fields 3 [1, 1, 1] ["only"]).getD 2 "" = ascii_field "" ([1, 1, 1].getD 2 0) :=
  render_shape_safety.2.2.1 3 [1, 1, 1] ["only"] 2 (by decide) (by decide)

/-- Claim C10: the effective row limit of get_sample_data is
min(requested limit, 10), defaulting to 5 when no limit is supplied; values
below 1 are not raised to the declared minimum — they pass through unchanged
into the sample query and the response header. -/
theorem get_sample_data_limit :
    (∀ args : Args, effective_sample_limit args = min (args.limit.getD 5) 10)
  ∧ effective_sample_limit { table_name := some "users", limit := none } = 5
  ∧ effective_sample_limit { table_name := some "users", limit := some 0 } = 0
  ∧ effective_sample_limit { table_name := some "users", limit := some (-3) } = -3
  ∧ effective_sample_limit { table_name := some "users", limit := some 99 } = 10
  ∧ (∀ (c : ClientBehavior) (args : Args) (t : String) (column_names : List String)
        (sample : List (List String)),
       args.table_name = some t → ALLOWED_TABLES.contains t = true → c.connect = .ok () →
       c.colNames t = .ok column_names →
       c.sampleRows t (min (args.limit.getD 5) 10) = .ok sample →
       (call_tool c "get_sample_data" args).texts
         = ["📋 Sample Data from '" ++ t ++ "' (first "
             ++ toString (min (args.limit.getD 5) 10) ++ " rows):\n\n"
             ++ format_table_as_ascii column_names sample]) := by
  refine ⟨fun _ => rfl, by decide, by decide, by decide, by decide, ?_⟩
  intro c args t column_names sample ht hallow hconn hcols hsample
  have hlim : effective_sample_limit args = min (args.limit.getD 5) 10 := rfl
  simp only [call_tool, hconn]
  simp only [call_tool_body, ht, hallow, hlim, hcols, hsample]
  simp

/-- Claim C10 witness (limit 0 requested: passed through, not raised to 1). -/
theorem get_sample_data_limit_witness :
    (call_tool emptyCatalogClient "get_sample_data"
        { table_name := some "users", limit := some 0 }).texts
      = ["📋 Sample Data from 'users' (first "
          ++ toString (min ((some (0 : Int)).getD 5) 10) ++ " rows):\n\n"
          ++ format_table_as_ascii [] []] :=
  get_sample_data_limit.2.2.2.2.2 emptyCatalogClient
    { table_name := some "users", limit := some 0 } "users" [] [] rfl (by decide) rfl rfl rfl

/-- Claim C7: when the metadata client cannot be constructed, call_mcp_tool
returns the deterministic mock fallback text for the requested tool (the fixed
constants for the two known tools), acquiring and releasing no connection; when
a live catalog query raises (for example a timeout), the reply degrades to the
fixed operator-facing error text carrying the message — in every case the
result is a value, never a propagated fault. -/
theorem metadata_unavailable_fallback :
    (∀ (w : WebDb) (tool_name : String) (args : Args), w.connectOk = false →
       call_mcp_tool w tool_name args
         = { text := get_mock_data tool_name args, acquired := 0, released := 0 })
  ∧ (∀ (w : WebDb) (args : Args), w.connectOk = false →
       call_mcp_tool w "list_tables_with_columns" args
         = { text := mock_list_tables_text, acquired := 0, released := 0 })
  ∧ (∀ (w : WebDb) (args : Args), w.connectOk = false →
       call_mcp_tool w "get_database_schema" args
         = { text := mock_schema_text, acquired := 0, released := 0 })
  ∧ (∀ (w : WebDb) (args : Args) (e : String), w.connectOk = true → w.colRows = .error e →
       (call_mcp_tool w "list_tables_with_columns" args).text
           = "Error getting live tables: " ++ e
         ∧ (call_mcp_tool w "list_tables_with_columns" args).released = 1)
  ∧ (∀ (w : WebDb) (args : Args) (e : String), w.connectOk = true → w.schemaRows = .error e →
       (call_mcp_tool w "get_database_schema" args).text
           = "Error getting live schema: " ++ e
         ∧ (call_mcp_tool w "get_database_schema" args).released = 1) := by
  refine ⟨?_, ?_, ?_, ?_, ?_⟩
  · intro w tool_name args h
    simp [call_mcp_tool, h]
  · intro w args h
    simp [call_mcp_tool, h, get_mock_data]
  · intro w args h
    simp [call_mcp_tool, h, get_mock_data]
  · intro w args e h he
    constructor <;> simp [call_mcp_tool, h, get_live_tables_with_columns, he]
  · intro w args e h he
    constructor <;> simp [call_mcp_tool, h, get_live_database_schema, he]

/-- Claim C7 witness. -/
theorem metadata_unavailable_fallback_witness :
    call_mcp_tool { connectOk := false, colRows := .ok [], schemaRows := .ok [] }
        "list_tables_with_columns" { table_name := none, limit := none }
      = { text := mock_list_tables_text, acquired := 0, released := 0 } :=
  metadata_unavailable_fallback.2.1
    { connectOk := false, colRows := .ok [], schemaRows := .ok [] }
    { table_name := none, limit := none } rfl

/-- Claim C6 counterexample: web_app's dispatcher answers an unknown operation
with the fixed placeholder "Tool result" — the same text for every unknown
name, mentioning neither the operation nor a rejection — so the reply is not a
descriptive rejection result. -/
theorem call_mcp_tool_unknown_counterexample :
    (call_mcp_tool { connectOk := true, colRows := .ok [], schemaRows := .ok [] }
        "drop_table" { table_name := none, limit := none }).text = "Tool result"
  ∧ strContains "Tool result" "drop_table" = false
  ∧ (call_mcp_tool { connectOk := true, colRows := .ok [], schemaRows := .ok [] }
        "some_other_unknown_tool" { table_name := none, limit := none }).text = "Tool result" :=
  ⟨by decide, by decide, by decide⟩

/-- Claim C6 amended: neither dispatcher throws (both are total functions into
result values), both release the metadata connection exactly as often as they
acquired it (at most once) on every exit path; for an unknown operation name
mcp_server's call_tool answers the descriptive text "Unknown tool: name" when a
connection exists, while web_app's call_mcp_tool answers the fixed placeholder
"Tool result" via the mock fallback. -/
theorem dispatch_unknown_amended :
    (∀ (c : ClientBehavior) (name : String) (args : Args),
       (call_tool c name args).released = (call_tool c name args).acquired
         ∧ (call_tool c name args).acquired ≤ 1)
  ∧ (∀ (c : ClientBehavior) (name : String) (args : Args),
       ¬ name ∈ ["get_table_schema", "list_tables", "get_sample_data"] → c.connect = .ok () →
       (call_tool c name args).texts = ["Unknown tool: " ++ name])
  ∧ (∀ (w : WebDb) (name : String) (args : Args),
       (call_mcp_tool w name args).released = (call_mcp_tool w name args).acquired
         ∧ (call_mcp_tool w name args).acquired ≤ 1)
  ∧ (∀ (w : WebDb) (name : String) (args : Args),
       ¬ name ∈ ["list_tables_with_columns", "get_database_schema"] →
       (call_mcp_tool w name args).text = "Tool result") := by
  refine ⟨?_, ?_, ?_, ?_⟩
  · intro c name args
    cases hc : c.connect <;> simp [call_tool, hc]
  · intro c name args hname hconn
    simp only [List.mem_cons, List.not_mem_nil, or_false, not_or] at hname
    obtain ⟨h1, h2, h3⟩ := hname
    simp [call_tool, hconn, call_tool_body, h1, h2, h3]
  · intro w name args
    cases hw : w.connectOk <;> simp [call_mcp_tool, hw]
  · intro w name args hname
    simp only [List.mem_cons, List.not_mem_nil, or_false, not_or] at hname
    obtain ⟨h1, h2⟩ := hname
    cases hw : w.connectOk <;> simp [call_mcp_tool, hw, get_mock_data, h1, h2]

/-- Claim C6 amended witness. -/
theorem dispatch_unknown_amended_witness :
    (call_tool emptyCatalogClient "drop_table" { table_name := none, limit := none }).texts
      = ["Unknown tool: " ++ "drop_table"] :=
  dispatch_unknown_amended.2.1 emptyCatalogClient "drop_table"
    { table_name := none, limit := none } (by decide) rfl
